import Mathlib

/-!
Verification of the rotatable-rectangle geometry engine and geodesy helpers of
the nzcvm_webapp front end (src/js/utils.js, src/js/rectangleControls.js,
src/js/apiClient.js).

Modelling conventions.

JavaScript numbers appear in two roles in the sources:

* In the grid-size / runtime calculators (utils.js: calculateGridPoints,
  calculateApproxRunTime) and their caller (apiClient.js:
  generateModelAndDownload) the NaN / Infinity behaviour of JS numbers is
  essential to the claims, so there JS numbers are modelled by the inductive
  type JSNum: NaN, the two infinities, or a finite value carried as a
  rational.  Finite float arithmetic is idealised as exact rational
  arithmetic.

* In the geometry engine (rectangleControls.js) the claims quantify over real
  coordinates and real rotation angles, so there JS numbers are modelled as
  real numbers and Math.cos / Math.sin / Math.sqrt / Math.PI as the Mathlib
  functions on ℝ.

The Leaflet map widget is an external collaborator: it only supplies the
conversion between geographic coordinates and container (screen) points.  It
is modelled by a MapProj record holding those two conversion functions; the
concrete instances used for witnesses are linear viewports, a valid local
approximation of the Leaflet container mapping.

Leaflet primitives used by the sources are modelled directly from their
documented behaviour: L.latLngBounds normalises its corner arguments to a
south-west / north-east pair (componentwise min / max), LatLngBounds.getCenter
is the componentwise midpoint, and L.Polygon stores its vertex list
(getLatLngs / setLatLngs).
-/

/-! ## JS numbers with NaN and infinities (rational payload) -/

/-- A JavaScript number as used by the grid calculators: NaN, +Infinity,
-Infinity, or a finite value (idealised as a rational). -/
inductive JSNum where
  | nan
  | posInf
  | negInf
  | fin (x : ℚ)
deriving DecidableEq, Repr

/-- JS isNaN on numbers. -/
def JSNum.isNaN : JSNum → Bool
  | .nan => true
  | _ => false

/-- JS comparison a less-or-equal b (false whenever NaN is involved). -/
def jsLe : JSNum → JSNum → Bool
  | .nan, _ => false
  | _, .nan => false
  | .negInf, _ => true
  | _, .posInf => true
  | .posInf, _ => false
  | _, .negInf => false
  | .fin x, .fin y => decide (x ≤ y)

/-- JS comparison a greater-or-equal b (false whenever NaN is involved). -/
def jsGe (a b : JSNum) : Bool := jsLe b a

/-- JS addition. -/
def jsAdd : JSNum → JSNum → JSNum
  | .nan, _ => .nan
  | _, .nan => .nan
  | .posInf, .negInf => .nan
  | .negInf, .posInf => .nan
  | .posInf, _ => .posInf
  | _, .posInf => .posInf
  | .negInf, _ => .negInf
  | _, .negInf => .negInf
  | .fin x, .fin y => .fin (x + y)

/-- JS negation. -/
def jsNeg : JSNum → JSNum
  | .nan => .nan
  | .posInf => .negInf
  | .negInf => .posInf
  | .fin x => .fin (-x)

/-- JS subtraction. -/
def jsSub (a b : JSNum) : JSNum := jsAdd a (jsNeg b)

/-- JS multiplication (Infinity times zero is NaN). -/
def jsMul : JSNum → JSNum → JSNum
  | .nan, _ => .nan
  | _, .nan => .nan
  | .posInf, .posInf => .posInf
  | .posInf, .negInf => .negInf
  | .negInf, .posInf => .negInf
  | .negInf, .negInf => .posInf
  | .posInf, .fin y => if y = 0 then .nan else if 0 < y then .posInf else .negInf
  | .negInf, .fin y => if y = 0 then .nan else if 0 < y then .negInf else .posInf
  | .fin x, .posInf => if x = 0 then .nan else if 0 < x then .posInf else .negInf
  | .fin x, .negInf => if x = 0 then .nan else if 0 < x then .negInf else .posInf
  | .fin x, .fin y => .fin (x * y)

/-- JS division (division by zero gives a signed infinity, zero over zero NaN). -/
def jsDiv : JSNum → JSNum → JSNum
  | .nan, _ => .nan
  | _, .nan => .nan
  | .posInf, .posInf => .nan
  | .posInf, .negInf => .nan
  | .negInf, .posInf => .nan
  | .negInf, .negInf => .nan
  | .posInf, .fin y => if 0 ≤ y then .posInf else .negInf
  | .negInf, .fin y => if 0 ≤ y then .negInf else .posInf
  | .fin _, .posInf => .fin 0
  | .fin _, .negInf => .fin 0
  | .fin x, .fin y =>
    if y = 0 then (if x = 0 then .nan else if 0 < x then .posInf else .negInf)
    else .fin (x / y)

/-- JS Math.round: round half toward positive infinity on finite values. -/
def jsRound : JSNum → JSNum
  | .nan => .nan
  | .posInf => .posInf
  | .negInf => .negInf
  | .fin x => .fin (⌊x + 1/2⌋ : ℤ)

/-- JS Math.max of two numbers (NaN if either argument is NaN). -/
def jsMax : JSNum → JSNum → JSNum
  | .nan, _ => .nan
  | _, .nan => .nan
  | .posInf, _ => .posInf
  | _, .posInf => .posInf
  | .negInf, b => b
  | a, .negInf => a
  | .fin x, .fin y => .fin (max x y)

/-! ## utils.js: calculateGridPoints and calculateApproxRunTime -/

/-- Result record of calculateGridPoints. -/
structure GridPoints where
  nx : JSNum
  ny : JSNum
  nz : JSNum
  totalGridPoints : JSNum
deriving DecidableEq, Repr

/-- utils.js calculateGridPoints: validates inputs (isNaN on each argument and
non-positivity of the two spacings), then nx = round(extentX / spacing),
ny = round(extentY / spacing), nz = max(1, round((zmax - zmin) / zspacing)),
total = nx * ny * nz. -/
def calculateGridPoints (extentX extentY extentLatlonSpacing extentZmax extentZmin
    extentZSpacing : JSNum) : GridPoints :=
  if extentX.isNaN || extentY.isNaN || extentLatlonSpacing.isNaN || extentZmax.isNaN
      || extentZmin.isNaN || extentZSpacing.isNaN
      || jsLe extentLatlonSpacing (.fin 0) || jsLe extentZSpacing (.fin 0) then
    ⟨.nan, .nan, .nan, .nan⟩
  else
    let nx := jsRound (jsDiv extentX extentLatlonSpacing)
    let ny := jsRound (jsDiv extentY extentLatlonSpacing)
    let nz := jsMax (.fin 1) (jsRound (jsDiv (jsSub extentZmax extentZmin) extentZSpacing))
    let totalGridPoints := jsMul (jsMul nx ny) nz
    ⟨nx, ny, nz, totalGridPoints⟩

/-- utils.js calculateApproxRunTime: NaN for NaN or non-positive input,
otherwise 33 + totalGridPoints * 2.6014383829e-5 seconds. -/
def calculateApproxRunTime (totalGridPoints : JSNum) : JSNum :=
  if totalGridPoints.isNaN || jsLe totalGridPoints (.fin 0) then
    .nan
  else
    jsAdd (.fin 33) (jsMul totalGridPoints (.fin 2.6014383829e-5))

/-- Shared evaluation of calculateGridPoints on the reference input of the
grid-determinism property. -/
theorem calculateGridPoints_ref_eval :
    calculateGridPoints (.fin 300) (.fin 300) (.fin 0.4) (.fin 45) (.fin 0) (.fin 0.4)
      = ⟨.fin 750, .fin 750, .fin 113, .fin 63562500⟩ := by
  have h1 : (300 : ℚ) / 0.4 = 750 := by norm_num
  have h2 : (45 : ℚ) + -0 = 45 := by norm_num
  have h3 : (45 : ℚ) / 0.4 = 112.5 := by norm_num
  have h4 : (⌊(750 : ℚ) + 1/2⌋ : ℤ) = 750 := by norm_num [Int.floor_eq_iff]
  have h5 : (⌊(112.5 : ℚ) + 1/2⌋ : ℤ) = 113 := by norm_num [Int.floor_eq_iff]
  simp only [calculateGridPoints, JSNum.isNaN, jsLe, jsDiv, jsSub, jsAdd, jsNeg, jsRound,
    jsMax, jsMul]
  norm_num [h1, h2, h3, h4, h5]

/-- C6: calculateGridPoints(300, 300, 0.4, 45, 0, 0.4) returns nx = 750,
ny = 750, nz = 113 and totalGridPoints = 63562500; in particular
(45 - 0) / 0.4 = 112.5 rounds up to 113 (round half up, not truncation) and
300 / 0.4 rounds to 750. -/
theorem grid_estimate_determinism :
    calculateGridPoints (.fin 300) (.fin 300) (.fin 0.4) (.fin 45) (.fin 0) (.fin 0.4)
        = ⟨.fin 750, .fin 750, .fin 113, .fin 63562500⟩
      ∧ jsRound (jsDiv (jsSub (.fin 45) (.fin 0)) (.fin 0.4)) = .fin 113
      ∧ jsRound (jsDiv (.fin 300) (.fin 0.4)) = .fin 750 := by
  have h1 : (300 : ℚ) / 0.4 = 750 := by norm_num
  have h2 : (45 : ℚ) + -0 = 45 := by norm_num
  have h3 : (45 : ℚ) / 0.4 = 112.5 := by norm_num
  have h4 : (⌊(750 : ℚ) + 1/2⌋ : ℤ) = 750 := by norm_num [Int.floor_eq_iff]
  have h5 : (⌊(112.5 : ℚ) + 1/2⌋ : ℤ) = 113 := by norm_num [Int.floor_eq_iff]
  refine ⟨calculateGridPoints_ref_eval, ?_, ?_⟩ <;>
    · simp only [jsDiv, jsSub, jsAdd, jsNeg, jsRound]
      norm_num [h1, h2, h3, h4, h5]

/-- C8 counterexample: an infinite (but not NaN) argument is not caught by the
validation guard, so the result is not the all-NaN sentinel: with
extentX = Infinity the function returns nx = Infinity. -/
theorem grid_invalid_sentinel_counterexample :
    calculateGridPoints .posInf (.fin 300) (.fin 0.4) (.fin 45) (.fin 0) (.fin 0.4)
        = ⟨.posInf, .fin 750, .fin 113, .posInf⟩
      ∧ JSNum.posInf ≠ JSNum.nan := by
  have h1 : (300 : ℚ) / 0.4 = 750 := by norm_num
  have h3 : (45 : ℚ) / 0.4 = 112.5 := by norm_num
  have h4 : (⌊(750 : ℚ) + 1/2⌋ : ℤ) = 750 := by norm_num [Int.floor_eq_iff]
  have h5 : (⌊(112.5 : ℚ) + 1/2⌋ : ℤ) = 113 := by norm_num [Int.floor_eq_iff]
  constructor
  · simp only [calculateGridPoints, JSNum.isNaN, jsLe, jsDiv, jsSub, jsAdd, jsNeg, jsRound,
      jsMax, jsMul]
    norm_num [h1, h3, h4, h5]
  · simp

/-- C8 amended: whenever any of the six arguments is NaN, or either spacing
compares less-or-equal to zero, calculateGridPoints returns the all-NaN
sentinel (and, being a total function, raises no exception).  Infinite
non-NaN arguments are not rejected by the guard. -/
theorem grid_invalid_sentinel_amended (a b c d e f : JSNum)
    (h : a.isNaN = true ∨ b.isNaN = true ∨ c.isNaN = true ∨ d.isNaN = true
      ∨ e.isNaN = true ∨ f.isNaN = true
      ∨ jsLe c (.fin 0) = true ∨ jsLe f (.fin 0) = true) :
    calculateGridPoints a b c d e f = ⟨.nan, .nan, .nan, .nan⟩ := by
  unfold calculateGridPoints
  rcases h with h | h | h | h | h | h | h | h <;> simp [h]

/-- Witness for the amended C8 theorem at a concrete NaN input. -/
theorem grid_invalid_sentinel_amended_witness :
    JSNum.isNaN .nan = true
      ∧ calculateGridPoints .nan (.fin 300) (.fin 0.4) (.fin 45) (.fin 0) (.fin 0.4)
          = ⟨.nan, .nan, .nan, .nan⟩ :=
  ⟨rfl, grid_invalid_sentinel_amended _ _ _ _ _ _ (Or.inl rfl)⟩

/-- C10: calculateApproxRunTime returns NaN (without raising) for NaN or
non-positive input, and exactly 33 + totalGridPoints * 2.6014383829e-5
seconds for every finite positive input. -/
theorem approx_runtime_spec :
    (∀ t : JSNum, t.isNaN = true ∨ jsLe t (.fin 0) = true → calculateApproxRunTime t = .nan)
      ∧ ∀ x : ℚ, 0 < x →
          calculateApproxRunTime (.fin x) = .fin (33 + x * 2.6014383829e-5) := by
  constructor
  · intro t h
    rcases h with h | h <;> simp [calculateApproxRunTime, h]
  · intro x hx
    simp [calculateApproxRunTime, JSNum.isNaN, jsLe, jsAdd, jsMul, not_le.mpr hx]

/-- Witness for C10 at the concrete inputs NaN, -3 and 1. -/
theorem approx_runtime_spec_witness :
    (JSNum.isNaN .nan = true) ∧ (jsLe (.fin (-3)) (.fin 0) = true) ∧ ((0 : ℚ) < 1)
      ∧ calculateApproxRunTime .nan = .nan
      ∧ calculateApproxRunTime (.fin (-3)) = .nan
      ∧ calculateApproxRunTime (.fin 1) = .fin (33 + 1 * 2.6014383829e-5) :=
  ⟨rfl, by norm_num [jsLe], by norm_num,
    approx_runtime_spec.1 .nan (Or.inl rfl),
    approx_runtime_spec.1 (.fin (-3)) (Or.inr (by norm_num [jsLe])),
    approx_runtime_spec.2 1 (by norm_num)⟩

/-! ## apiClient.js: generateModelAndDownload -/

/-- Numeric and string form fields read by apiClient.js (parseFloat of a form
field can yield NaN, hence JSNum). -/
structure FormValues where
  modelVersion : String
  originLat : JSNum
  originLon : JSNum
  rotation : JSNum
  extentX : JSNum
  extentY : JSNum
  extentZmax : JSNum
  extentZmin : JSNum
  zSpacing : JSNum
  xySpacing : JSNum
  minVs : JSNum
  topoType : String
  outputDir : String

/-- The JSON body POSTed to the run endpoint (field-for-field image of the
formData object built in generateModelAndDownload; CALL_TYPE is the constant
GENERATE_VELOCITY_MOD and OUTPUT_DIR defaults when the form field is empty). -/
structure RunRequest where
  modelVersion : String
  originLat : JSNum
  originLon : JSNum
  originRot : JSNum
  extentX : JSNum
  extentY : JSNum
  extentZmax : JSNum
  extentZmin : JSNum
  extentZSpacing : JSNum
  extentLatlonSpacing : JSNum
  minVs : JSNum
  topoType : String
  outputDir : String

/-- The formData record built by generateModelAndDownload before the POST. -/
def buildRunRequest (fv : FormValues) : RunRequest :=
  { modelVersion := fv.modelVersion
    originLat := fv.originLat
    originLon := fv.originLon
    originRot := fv.rotation
    extentX := fv.extentX
    extentY := fv.extentY
    extentZmax := fv.extentZmax
    extentZmin := fv.extentZmin
    extentZSpacing := fv.zSpacing
    extentLatlonSpacing := fv.xySpacing
    minVs := fv.minVs
    topoType := fv.topoType
    outputDir := if fv.outputDir = "" then "/tmp/nzcvm_output" else fv.outputDir }

/-- Observable outcome of one generateModelAndDownload invocation, as far as
the run endpoint is concerned: either the client-side refusal (status message
naming the 10-minute limit together with a configuration-file download link,
and an early return, so no POST is issued), or a POST of the run request. -/
inductive GenerateOutcome where
  | refusedOverCeiling
  | submitted (body : RunRequest)

/-- The estimated runtime computed at the top of generateModelAndDownload from
the six numeric form fields. -/
def estimatedSecondsFor (fv : FormValues) : JSNum :=
  calculateApproxRunTime
    (calculateGridPoints fv.extentX fv.extentY fv.xySpacing fv.extentZmax fv.extentZmin
      fv.zSpacing).totalGridPoints

/-- apiClient.js generateModelAndDownload, reduced to its decision between the
client-side refusal (estimatedSeconds greater-or-equal 600) and submitting the
POST.  Timer display and response handling after the POST are external
effects outside this decision. -/
def generateModelAndDownload (fv : FormValues) : GenerateOutcome :=
  if jsGe (estimatedSecondsFor fv) (.fin 600) then
    .refusedOverCeiling
  else
    .submitted (buildRunRequest fv)

/-- C9: whenever the estimated runtime computed from the form values exceeds
the 10-minute (600 second) ceiling, generateModelAndDownload refuses the
request client-side (message with a configuration-download link) and returns
before issuing any POST to the run endpoint. -/
theorem runtime_ceiling_refusal (fv : FormValues) (x : ℚ)
    (hx : estimatedSecondsFor fv = .fin x) (h6 : 600 < x) :
    generateModelAndDownload fv = .refusedOverCeiling := by
  unfold generateModelAndDownload
  rw [hx]
  simp [jsGe, jsLe, h6.le]

/-- A form whose grid is the reference 300 x 300 km, 0.4 km spacing, 45 km
deep model (totalGridPoints 63562500, estimated runtime about 1686 s). -/
def exampleLargeForm : FormValues :=
  { modelVersion := "2.03"
    originLat := .fin (-41.2865)
    originLon := .fin 174.7762
    rotation := .fin 0
    extentX := .fin 300
    extentY := .fin 300
    extentZmax := .fin 45
    extentZmin := .fin 0
    zSpacing := .fin 0.4
    xySpacing := .fin 0.4
    minVs := .fin 500
    topoType := "SQUASHED_TAPERED"
    outputDir := "" }

/-- Witness for C9: the reference large model estimates over the ceiling and
is refused. -/
theorem runtime_ceiling_refusal_witness :
    estimatedSecondsFor exampleLargeForm = .fin (33 + 63562500 * 2.6014383829e-5)
      ∧ (600 : ℚ) < 33 + 63562500 * 2.6014383829e-5
      ∧ generateModelAndDownload exampleLargeForm = .refusedOverCeiling := by
  have hx : estimatedSecondsFor exampleLargeForm
      = .fin (33 + 63562500 * 2.6014383829e-5) := by
    unfold estimatedSecondsFor exampleLargeForm
    rw [show calculateGridPoints (.fin 300) (.fin 300) (.fin 0.4) (.fin 45) (.fin 0) (.fin 0.4)
        = ⟨.fin 750, .fin 750, .fin 113, .fin 63562500⟩ from calculateGridPoints_ref_eval]
    simp only [calculateApproxRunTime, JSNum.isNaN, jsLe, jsAdd, jsMul]
    norm_num
  have h6 : (600 : ℚ) < 33 + 63562500 * 2.6014383829e-5 := by norm_num
  exact ⟨hx, h6, runtime_ceiling_refusal exampleLargeForm _ hx h6⟩

/-! ## Real-valued geometry layer (utils.js and rectangleControls.js) -/

noncomputable section

open Real

/-- A geographic point (Leaflet LatLng). -/
structure LatLng where
  lat : ℝ
  lng : ℝ

/-- A Leaflet LatLngBounds in normalised form: south-west and north-east
corner coordinates. -/
structure Bounds where
  swLat : ℝ
  swLng : ℝ
  neLat : ℝ
  neLng : ℝ

/-- LatLngBounds.getSouthWest. -/
def Bounds.getSouthWest (b : Bounds) : LatLng := ⟨b.swLat, b.swLng⟩

/-- LatLngBounds.getNorthEast. -/
def Bounds.getNorthEast (b : Bounds) : LatLng := ⟨b.neLat, b.neLng⟩

/-- LatLngBounds.getCenter: the componentwise midpoint. -/
def Bounds.getCenter (b : Bounds) : LatLng :=
  ⟨(b.swLat + b.neLat) / 2, (b.swLng + b.neLng) / 2⟩

/-- L.latLngBounds on two corner points: normalises to south-west and
north-east corners by componentwise min / max. -/
def latLngBounds2 (a b : LatLng) : Bounds :=
  ⟨min a.lat b.lat, min a.lng b.lng, max a.lat b.lat, max a.lng b.lng⟩

/-- L.latLngBounds on a list of points: the smallest bounds containing all of
them (Leaflet extends an empty bounds point by point). -/
def latLngBoundsOfList : List LatLng → Bounds
  | [] => ⟨0, 0, 0, 0⟩
  | p :: ps =>
    (ps.foldl (fun b q =>
      ⟨min b.swLat q.lat, min b.swLng q.lng, max b.neLat q.lat, max b.neLng q.lng⟩)
      ⟨p.lat, p.lng, p.lat, p.lng⟩)

/-- Result record of utils.js kmToDegrees. -/
structure KmDegrees where
  lat : ℝ
  lon : ℝ

/-- utils.js kmToDegrees: latitude degrees are km / 111.32, longitude degrees
additionally divide by the cosine of the reference latitude. -/
def kmToDegrees (km centerLat : ℝ) : KmDegrees :=
  let latDegrees := km / 111.32
  let latRadians := centerLat * (Real.pi / 180)
  let lonDegrees := km / (111.32 * Real.cos latRadians)
  ⟨latDegrees, lonDegrees⟩

/-- Result record of utils.js degreesToKm. -/
structure DegreesKm where
  latKm : ℝ
  lonKm : ℝ

/-- utils.js degreesToKm: inverse conversion of kmToDegrees. -/
def degreesToKm (lat lon centerLat : ℝ) : DegreesKm :=
  let latKm := lat * 111.32
  let latRadians := centerLat * (Real.pi / 180)
  let lonKm := lon * (111.32 * Real.cos latRadians)
  ⟨latKm, lonKm⟩

/-- C5: for km > 0 and a reference latitude strictly between -89 and 89
degrees, degreesToKm applied to the two components of kmToDegrees(km, lat)
reconstructs km exactly in both components. -/
theorem km_degree_round_trip (km lat : ℝ) (hkm : 0 < km)
    (hlo : -89 < lat) (hhi : lat < 89) :
    degreesToKm (kmToDegrees km lat).lat (kmToDegrees km lat).lon lat = ⟨km, km⟩ := by
  have hpi := Real.pi_pos
  have h1 : -(Real.pi / 2) < lat * (Real.pi / 180) := by nlinarith
  have h2 : lat * (Real.pi / 180) < Real.pi / 2 := by nlinarith
  have hc : Real.cos (lat * (Real.pi / 180)) ≠ 0 :=
    ne_of_gt (Real.cos_pos_of_mem_Ioo ⟨h1, h2⟩)
  unfold degreesToKm kmToDegrees
  simp only [DegreesKm.mk.injEq]
  constructor
  · field_simp
  · exact div_mul_cancel₀ km (mul_ne_zero (by norm_num) hc)

/-- Witness for C5 at km = 1, reference latitude 0. -/
theorem km_degree_round_trip_witness :
    (0 : ℝ) < 1 ∧ (-89 : ℝ) < 0 ∧ (0 : ℝ) < 89
      ∧ degreesToKm (kmToDegrees 1 0).lat (kmToDegrees 1 0).lon 0 = ⟨1, 1⟩ :=
  ⟨by norm_num, by norm_num, by norm_num,
    km_degree_round_trip 1 0 (by norm_num) (by norm_num) (by norm_num)⟩

/-! ## Rotation normalisation (setRotation) -/

/-- Truncation toward zero, the implicit quotient rounding of the JS
remainder operator. -/
def jsTrunc (x : ℝ) : ℤ := if 0 ≤ x then ⌊x⌋ else ⌈x⌉

/-- The JS remainder a % b: same sign as the dividend, truncating quotient. -/
def jsRem (a b : ℝ) : ℝ := a - b * jsTrunc (a / b)

/-- The setRotation normalisation ((angle % 360) + 360) % 360 from
rectangleControls.js. -/
def normalizeRotation (x : ℝ) : ℝ := jsRem (jsRem x 360 + 360) 360

/-- On nonnegative reals the JS remainder by 360 is the floor-based remainder. -/
theorem jsRem_nonneg_eq (a : ℝ) (ha : 0 ≤ a) :
    jsRem a 360 = 360 * Int.fract (a / 360) := by
  have hq : (0 : ℝ) ≤ a / 360 := by positivity
  unfold jsRem jsTrunc
  rw [if_pos hq, Int.fract]
  ring

/-- The composite normalisation equals 360 times the fractional part of
x / 360. -/
theorem normalizeRotation_eq_fract (x : ℝ) :
    normalizeRotation x = 360 * Int.fract (x / 360) := by
  have key : ∀ r : ℝ, 0 ≤ r → r < 360 → jsRem (r + 360) 360 = r := by
    intro r h0 h360
    have hq : (0 : ℝ) ≤ (r + 360) / 360 := by positivity
    have hdiv : (r + 360) / 360 = r / 360 + 1 := by ring
    have hfl : ⌊r / 360 + (1 : ℤ)⌋ = ⌊r / 360⌋ + 1 := Int.floor_add_int _ _
    have hfl0 : ⌊r / 360⌋ = 0 := by
      rw [Int.floor_eq_zero_iff]
      constructor
      · positivity
      · rw [div_lt_one (by norm_num)]; linarith
    unfold jsRem jsTrunc
    rw [if_pos hq, hdiv]
    push_cast at hfl
    rw [hfl, hfl0]
    push_cast
    ring
  rcases le_or_lt 0 x with hx | hx
  · have h1 : jsRem x 360 = 360 * Int.fract (x / 360) := jsRem_nonneg_eq x hx
    have h0 : 0 ≤ 360 * Int.fract (x / 360) := by
      have := Int.fract_nonneg (x / 360); linarith
    have hlt : 360 * Int.fract (x / 360) < 360 := by
      have := Int.fract_lt_one (x / 360); linarith
    rw [normalizeRotation, h1, key _ h0 hlt]
  · have hq : ¬ (0 : ℝ) ≤ x / 360 := by
      rw [not_le]; exact div_neg_of_neg_of_pos hx (by norm_num)
    rcases eq_or_ne (Int.fract (x / 360)) 0 with hf | hf
    · have hx360 : x / 360 = (⌊x / 360⌋ : ℝ) := by
        have : Int.fract (x / 360) = x / 360 - ⌊x / 360⌋ := rfl
        rw [this] at hf; linarith
      have hceil : ⌈x / 360⌉ = ⌊x / 360⌋ := by
        rw [hx360, Int.ceil_intCast, Int.floor_intCast]
      have hx' : x = (⌊x / 360⌋ : ℝ) * 360 :=
        (div_eq_iff (by norm_num : (360 : ℝ) ≠ 0)).mp hx360
      have h1 : jsRem x 360 = 0 := by
        unfold jsRem jsTrunc
        rw [if_neg hq, hceil]
        linarith
      rw [normalizeRotation, h1, hf, zero_add, mul_zero]
      have : (0 : ℝ) + 360 = 360 := by ring
      have h2 : jsRem 360 360 = 0 := by
        unfold jsRem jsTrunc
        rw [if_pos (by norm_num : (0:ℝ) ≤ 360 / 360)]
        norm_num
      simpa using h2
    · have hfpos : 0 < Int.fract (x / 360) :=
        lt_of_le_of_ne (Int.fract_nonneg _) (Ne.symm hf)
      have hflt : Int.fract (x / 360) < 1 := Int.fract_lt_one _
      have hfr : Int.fract (x / 360) = x / 360 - ⌊x / 360⌋ := rfl
      have hceil : ⌈x / 360⌉ = ⌊x / 360⌋ + 1 := by
        refine le_antisymm (Int.ceil_le_floor_add_one _) ?_
        rw [Int.add_one_le_iff]
        have hlt : (⌊x / 360⌋ : ℝ) < x / 360 := by linarith
        have hle : (x / 360 : ℝ) ≤ (⌈x / 360⌉ : ℝ) := Int.le_ceil _
        exact_mod_cast lt_of_lt_of_le hlt hle
      have h1 : jsRem x 360 = 360 * Int.fract (x / 360) - 360 := by
        unfold jsRem jsTrunc
        rw [if_neg hq, hceil]
        push_cast
        rw [hfr]
        ring
      have h0 : 0 ≤ 360 * Int.fract (x / 360) := by linarith
      have hlt2 : 360 * Int.fract (x / 360) < 360 := by linarith
      rw [normalizeRotation, h1, show 360 * Int.fract (x / 360) - 360 + 360
          = 360 * Int.fract (x / 360) from by ring]
      unfold jsRem jsTrunc
      rw [if_pos (div_nonneg h0 (by norm_num : (0:ℝ) ≤ 360))]
      have hfl0 : ⌊360 * Int.fract (x / 360) / 360⌋ = 0 := by
        rw [Int.floor_eq_zero_iff]
        constructor
        · exact div_nonneg h0 (by norm_num)
        · rw [div_lt_one (by norm_num)]; linarith
      rw [hfl0]
      push_cast
      ring

/-! ## The RotatableRectangle engine (rectangleControls.js) -/

/-- The state of a RotatableRectangle: the stored unrotated bounds
(_originalBounds), the stored rotation angle (_rotationAngle), and the
polygon vertex list maintained via setLatLngs (getLatLngs returns it). -/
structure RotatableRectangle where
  originalBounds : Bounds
  rotationAngle : ℝ
  latLngs : List LatLng

/-- RotatableRectangle._calculateCorners: convert the degree extents of the
stored bounds to km at the center latitude, rotate the four half-extent
corner offsets clockwise by the angle in km space, convert each offset back
to degrees and add it to the center; corners are produced in the fixed order
SW, SE, NE, NW of the unrotated rectangle. -/
def calculateCorners (bounds : Bounds) (angle : ℝ) : List LatLng :=
  let center := bounds.getCenter
  let sw := bounds.getSouthWest
  let ne := bounds.getNorthEast
  let degreeExtents := degreesToKm (ne.lat - sw.lat) (ne.lng - sw.lng) center.lat
  let halfWidthKm := degreeExtents.lonKm / 2
  let halfHeightKm := degreeExtents.latKm / 2
  let angleRad := -angle * (Real.pi / 180)
  let rotate := fun (dxKm dyKm : ℝ) =>
    let rotatedXKm := dxKm * Real.cos angleRad - dyKm * Real.sin angleRad
    let rotatedYKm := dxKm * Real.sin angleRad + dyKm * Real.cos angleRad
    let latOffsetDeg := rotatedYKm / 111.32
    let latRadians := center.lat * (Real.pi / 180)
    let lngOffsetDeg := rotatedXKm / (111.32 * Real.cos latRadians)
    LatLng.mk (center.lat + latOffsetDeg) (center.lng + lngOffsetDeg)
  [rotate (-halfWidthKm) (-halfHeightKm),
   rotate halfWidthKm (-halfHeightKm),
   rotate halfWidthKm halfHeightKm,
   rotate (-halfWidthKm) halfHeightKm]

/-- RotatableRectangle._updateCorners: recompute the polygon vertices from the
stored bounds and rotation (setLatLngs). -/
def RotatableRectangle.updateCorners (r : RotatableRectangle) : RotatableRectangle :=
  { r with latLngs := calculateCorners r.originalBounds r.rotationAngle }

/-- RotatableRectangle.initialize: store the bounds, zero rotation, and the
corners computed at angle 0. -/
def mkRotatableRectangle (bounds : Bounds) : RotatableRectangle :=
  ⟨bounds, 0, calculateCorners bounds 0⟩

/-- RotatableRectangle.setBounds: replace the stored bounds and rederive the
corners; rotation unchanged. -/
def RotatableRectangle.setBounds (r : RotatableRectangle) (b : Bounds) :
    RotatableRectangle :=
  RotatableRectangle.updateCorners { r with originalBounds := b }

/-- RotatableRectangle.setRotation: store the normalised angle and rederive
the corners; bounds unchanged. -/
def RotatableRectangle.setRotation (r : RotatableRectangle) (angle : ℝ) :
    RotatableRectangle :=
  RotatableRectangle.updateCorners { r with rotationAngle := normalizeRotation angle }

/-- RotatableRectangle.getRotation. -/
def RotatableRectangle.getRotation (r : RotatableRectangle) : ℝ := r.rotationAngle

/-- RotatableRectangle.getBounds. -/
def RotatableRectangle.getBounds (r : RotatableRectangle) : Bounds := r.originalBounds

/-- C4: after setRotation(x) the stored rotation returned by getRotation lies
in [0, 360), and setRotation(x + 360 k) produces exactly the same rectangle
state as setRotation(x) for every integer k. -/
theorem rotation_normalization (r : RotatableRectangle) (x : ℝ) :
    (0 ≤ (r.setRotation x).getRotation ∧ (r.setRotation x).getRotation < 360)
      ∧ ∀ k : ℤ, r.setRotation (x + 360 * k) = r.setRotation x := by
  have hval : ∀ y : ℝ, (r.setRotation y).getRotation = normalizeRotation y := fun y => rfl
  refine ⟨?_, ?_⟩
  · rw [hval, normalizeRotation_eq_fract]
    constructor
    · have := Int.fract_nonneg (x / 360); linarith
    · have := Int.fract_lt_one (x / 360); linarith
  · intro k
    have hper : normalizeRotation (x + 360 * k) = normalizeRotation x := by
      rw [normalizeRotation_eq_fract, normalizeRotation_eq_fract]
      have : (x + 360 * k) / 360 = x / 360 + (k : ℝ) := by
        field_simp
        ring
      rw [this, Int.fract_add_int]
    unfold RotatableRectangle.setRotation RotatableRectangle.updateCorners
    rw [hper]

/-! ## Corner order and centroid invariants -/

/-- South-east geographic corner of a bounds. -/
def Bounds.seCorner (b : Bounds) : LatLng := ⟨b.swLat, b.neLng⟩

/-- North-west geographic corner of a bounds. -/
def Bounds.nwCorner (b : Bounds) : LatLng := ⟨b.neLat, b.swLng⟩

/-- Modelled from the spec (section 4.2 getCorners): the per-point transform
that rotation applies about the rectangle center — convert the degree offset
of the point from the center into km via degreesToKm, apply the clockwise
rotation matrix in km space, and convert back to degrees.  Used to state that
changing the rotation moves each corner through this single transform without
changing its array position. -/
def rotatePointAboutCenter (bounds : Bounds) (angle : ℝ) (p : LatLng) : LatLng :=
  let center := bounds.getCenter
  let offsets := degreesToKm (p.lat - center.lat) (p.lng - center.lng) center.lat
  let dxKm := offsets.lonKm
  let dyKm := offsets.latKm
  let angleRad := -angle * (Real.pi / 180)
  let rotatedXKm := dxKm * Real.cos angleRad - dyKm * Real.sin angleRad
  let rotatedYKm := dxKm * Real.sin angleRad + dyKm * Real.cos angleRad
  let latOffsetDeg := rotatedYKm / 111.32
  let latRadians := center.lat * (Real.pi / 180)
  let lngOffsetDeg := rotatedXKm / (111.32 * Real.cos latRadians)
  ⟨center.lat + latOffsetDeg, center.lng + lngOffsetDeg⟩

/-- Half width of a bounds in km, exactly as computed by _calculateCorners. -/
def halfWidthKm (b : Bounds) : ℝ :=
  (degreesToKm (b.getNorthEast.lat - b.getSouthWest.lat)
    (b.getNorthEast.lng - b.getSouthWest.lng) b.getCenter.lat).lonKm / 2

/-- Half height of a bounds in km, exactly as computed by _calculateCorners. -/
def halfHeightKm (b : Bounds) : ℝ :=
  (degreesToKm (b.getNorthEast.lat - b.getSouthWest.lat)
    (b.getNorthEast.lng - b.getSouthWest.lng) b.getCenter.lat).latKm / 2

/-- The per-relative-corner body of _calculateCorners: rotate the km offset
(dxKm, dyKm) clockwise by the angle and add the resulting degree offsets to
the center (clat, clng). -/
def cornerFromOffsets (clat clng dxKm dyKm angle : ℝ) : LatLng :=
  let angleRad := -angle * (Real.pi / 180)
  let rotatedXKm := dxKm * Real.cos angleRad - dyKm * Real.sin angleRad
  let rotatedYKm := dxKm * Real.sin angleRad + dyKm * Real.cos angleRad
  let latOffsetDeg := rotatedYKm / 111.32
  let latRadians := clat * (Real.pi / 180)
  let lngOffsetDeg := rotatedXKm / (111.32 * Real.cos latRadians)
  ⟨clat + latOffsetDeg, clng + lngOffsetDeg⟩

/-- Structural reading of _calculateCorners: the list of the four rotated
half-extent offsets, in the fixed order SW, SE, NE, NW. -/
theorem calculateCorners_eq_offsets (b : Bounds) (θ : ℝ) :
    calculateCorners b θ =
      [cornerFromOffsets b.getCenter.lat b.getCenter.lng (-halfWidthKm b) (-halfHeightKm b) θ,
       cornerFromOffsets b.getCenter.lat b.getCenter.lng (halfWidthKm b) (-halfHeightKm b) θ,
       cornerFromOffsets b.getCenter.lat b.getCenter.lng (halfWidthKm b) (halfHeightKm b) θ,
       cornerFromOffsets b.getCenter.lat b.getCenter.lng (-halfWidthKm b) (halfHeightKm b) θ] :=
  rfl

/-- At rotation 0 the rotation matrix is the identity, so each corner sits at
the plain degree offsets from the center. -/
theorem cornerFromOffsets_zero (clat clng dx dy : ℝ) :
    cornerFromOffsets clat clng dx dy 0
      = ⟨clat + dy / 111.32, clng + dx / (111.32 * Real.cos (clat * (Real.pi / 180)))⟩ := by
  unfold cornerFromOffsets
  simp only [neg_zero, zero_mul, Real.cos_zero, Real.sin_zero, LatLng.mk.injEq]
  constructor <;> ring

/-- Rotating the unrotated corner at degree offsets (dx, dy) about the center
through the spec transform lands on the _calculateCorners corner for the same
offsets. -/
theorem rotatePointAboutCenter_offsets (b : Bounds)
    (hpole : Real.cos (b.getCenter.lat * (Real.pi / 180)) ≠ 0) (θ dx dy : ℝ) :
    rotatePointAboutCenter b θ
        ⟨b.getCenter.lat + dy / 111.32,
         b.getCenter.lng + dx / (111.32 * Real.cos (b.getCenter.lat * (Real.pi / 180)))⟩
      = cornerFromOffsets b.getCenter.lat b.getCenter.lng dx dy θ := by
  unfold rotatePointAboutCenter cornerFromOffsets degreesToKm
  simp only [LatLng.mk.injEq]
  set A := -θ * (Real.pi / 180) with hA
  set c := Real.cos (b.getCenter.lat * (Real.pi / 180)) with hc
  constructor
  · field_simp
    ring
  · field_simp
    ring

set_option maxHeartbeats 1600000 in
/-- C2: for a non-polar center, the corner list has exactly 4 entries for
every rotation; at rotation 0 it is exactly the geographic corner list
[SW, SE, NE, NW]; and at any rotation it is the pointwise image of the
rotation-0 list under the single rotation transform, so the array position of
each corner never changes with rotation, only its coordinates do. -/
theorem corner_order_invariance (b : Bounds)
    (hpole : Real.cos (b.getCenter.lat * (Real.pi / 180)) ≠ 0) :
    calculateCorners b 0 = [b.getSouthWest, b.seCorner, b.getNorthEast, b.nwCorner]
      ∧ ∀ θ : ℝ, (calculateCorners b θ).length = 4
        ∧ calculateCorners b θ
            = (calculateCorners b 0).map (rotatePointAboutCenter b θ) := by
  have hc2 : Real.cos ((b.swLat + b.neLat) / 2 * (Real.pi / 180)) ≠ 0 := by
    simpa [Bounds.getCenter] using hpole
  have hw : halfWidthKm b
      = (b.neLng - b.swLng) * (111.32 * Real.cos ((b.swLat + b.neLat) / 2 * (Real.pi / 180))) / 2 :=
    rfl
  have hh : halfHeightKm b = (b.neLat - b.swLat) * 111.32 / 2 := rfl
  have hA : calculateCorners b 0 = [b.getSouthWest, b.seCorner, b.getNorthEast, b.nwCorner] := by
    rw [calculateCorners_eq_offsets, cornerFromOffsets_zero, cornerFromOffsets_zero,
      cornerFromOffsets_zero, cornerFromOffsets_zero, hw, hh]
    simp only [Bounds.getSouthWest, Bounds.seCorner, Bounds.getNorthEast, Bounds.nwCorner,
      Bounds.getCenter, List.cons.injEq, LatLng.mk.injEq, and_true]
    set c := Real.cos ((b.swLat + b.neLat) / 2 * (Real.pi / 180)) with hcdef
    refine ⟨⟨?_, ?_⟩, ⟨?_, ?_⟩, ⟨?_, ?_⟩, ?_, ?_⟩ <;> field_simp <;> ring
  refine ⟨hA, fun θ => ⟨by rw [calculateCorners_eq_offsets]; rfl, ?_⟩⟩
  conv_rhs => rw [calculateCorners_eq_offsets b 0]
  rw [calculateCorners_eq_offsets b θ]
  simp only [List.map_cons, List.map_nil, cornerFromOffsets_zero,
    rotatePointAboutCenter_offsets b hpole]

/-- Witness for C2 at the concrete bounds sw = (-1, -2), ne = (1, 2) and
rotation 90 degrees. -/
theorem corner_order_invariance_witness :
    Real.cos ((Bounds.mk (-1) (-2) 1 2).getCenter.lat * (Real.pi / 180)) ≠ 0
      ∧ calculateCorners (Bounds.mk (-1) (-2) 1 2) 0
          = [(Bounds.mk (-1) (-2) 1 2).getSouthWest, (Bounds.mk (-1) (-2) 1 2).seCorner,
             (Bounds.mk (-1) (-2) 1 2).getNorthEast, (Bounds.mk (-1) (-2) 1 2).nwCorner]
      ∧ (calculateCorners (Bounds.mk (-1) (-2) 1 2) 90).length = 4
      ∧ calculateCorners (Bounds.mk (-1) (-2) 1 2) 90
          = (calculateCorners (Bounds.mk (-1) (-2) 1 2) 0).map
              (rotatePointAboutCenter (Bounds.mk (-1) (-2) 1 2) 90) := by
  have hpole : Real.cos ((Bounds.mk (-1) (-2) 1 2).getCenter.lat * (Real.pi / 180)) ≠ 0 := by
    norm_num [Bounds.getCenter]
  exact ⟨hpole, (corner_order_invariance _ hpole).1,
    ((corner_order_invariance _ hpole).2 90).1, ((corner_order_invariance _ hpole).2 90).2⟩

/-- The componentwise mean of a list of geographic points. -/
def centroid (ps : List LatLng) : LatLng :=
  ⟨((ps.map LatLng.lat).sum) / ps.length, ((ps.map LatLng.lng).sum) / ps.length⟩

set_option maxHeartbeats 1600000 in
/-- C3: for every valid rectangle state (positive extents, non-polar center)
and every rotation angle, the centroid of the four corners computed by
_calculateCorners equals the center of the stored bounds — exactly, in real
arithmetic. -/
theorem centroid_invariance (b : Bounds) (θ : ℝ)
    (hx : b.swLng < b.neLng) (hy : b.swLat < b.neLat)
    (hpole : Real.cos (b.getCenter.lat * (Real.pi / 180)) ≠ 0) :
    centroid (calculateCorners b θ) = b.getCenter := by
  rw [calculateCorners_eq_offsets]
  unfold centroid cornerFromOffsets Bounds.getCenter
  simp only [List.map_cons, List.map_nil, List.sum_cons, List.sum_nil, List.length_cons,
    List.length_nil, LatLng.mk.injEq]
  norm_num
  constructor <;> ring

/-- Witness for C3 at the concrete bounds sw = (-1, -2), ne = (1, 2) and
rotation 90 degrees. -/
theorem centroid_invariance_witness :
    ((Bounds.mk (-1) (-2) 1 2).swLng < (Bounds.mk (-1) (-2) 1 2).neLng)
      ∧ ((Bounds.mk (-1) (-2) 1 2).swLat < (Bounds.mk (-1) (-2) 1 2).neLat)
      ∧ Real.cos ((Bounds.mk (-1) (-2) 1 2).getCenter.lat * (Real.pi / 180)) ≠ 0
      ∧ centroid (calculateCorners (Bounds.mk (-1) (-2) 1 2) 90)
          = (Bounds.mk (-1) (-2) 1 2).getCenter := by
  have hpole : Real.cos ((Bounds.mk (-1) (-2) 1 2).getCenter.lat * (Real.pi / 180)) ≠ 0 := by
    norm_num [Bounds.getCenter]
  exact ⟨by norm_num, by norm_num, hpole,
    centroid_invariance _ 90 (by norm_num) (by norm_num) hpole⟩

/-! ## Pointer interaction: the resize handlers of rectangleControls.js -/

/-- A container (screen) point. -/
structure Pt where
  x : ℝ
  y : ℝ

/-- The map viewport interface used by the drag handlers (the Leaflet map is
an external collaborator): conversion between geographic coordinates and
container points. -/
structure MapProj where
  latLngToContainerPoint : LatLng → Pt
  containerPointToLatLng : Pt → LatLng

/-- Which corner handle a corner-resize drag grabbed. -/
inductive CornerPos where
  | topLeft
  | topRight
  | bottomLeft
  | bottomRight

/-- Which side handle a side-resize drag grabbed. -/
inductive SidePos where
  | top
  | bottom
  | left
  | right

/-- The kind of resize handle grabbed at drag start. -/
inductive HandleKind where
  | corner (pos : CornerPos)
  | side (pos : SidePos)

/-- The resize drag session recorded by startResize: the grabbed handle, the
pointer position at drag start (initialResizeHandlePos) and the rectangle
bounds at drag start (initialRectBounds). -/
structure ResizeSession where
  handle : HandleKind
  initialResizeHandlePos : LatLng
  initialRectBounds : Bounds

/-- The interaction state relevant to a resize frame: the rectangle, the
isResizing flag, and the session recorded at pointer-down (the session is
cleared only by the mouseup handler). -/
structure UIState where
  rect : RotatableRectangle
  isResizing : Bool
  session : ResizeSession

/-- The rotatePoint helper of the resize handlers: rotate a container point
about a center point by an angle in radians. -/
def rotatePoint (point centerPt : Pt) (angleRad : ℝ) : Pt :=
  let x := point.x - centerPt.x
  let y := point.y - centerPt.y
  let rotatedX := x * Real.cos angleRad - y * Real.sin angleRad
  let rotatedY := x * Real.sin angleRad + y * Real.cos angleRad
  ⟨centerPt.x + rotatedX, centerPt.y + rotatedY⟩

/-- The unrotatePoint helper of handleSideResize: rotate by the negated
angle. -/
def unrotatePoint (point centerPt : Pt) (angleRad : ℝ) : Pt :=
  let x := point.x - centerPt.x
  let y := point.y - centerPt.y
  let unrotatedX := x * Real.cos (-angleRad) - y * Real.sin (-angleRad)
  let unrotatedY := x * Real.sin (-angleRad) + y * Real.cos (-angleRad)
  ⟨centerPt.x + unrotatedX, centerPt.y + unrotatedY⟩

/-- applyRotation: re-apply the current rotation angle (the global
rotationAngle, which setRotation keeps in sync with the rectangle) to the
rectangle, rederiving its corners. -/
def applyRotation (r : RotatableRectangle) : RotatableRectangle :=
  r.setRotation r.rotationAngle

/-- The minimum-size test of the resize handlers (minSize = 0.001 degrees):
either extent of the candidate bounds measures under 0.001 degrees. -/
def belowMinSize (b : Bounds) : Prop :=
  |b.neLng - b.swLng| < 0.001 ∨ |b.neLat - b.swLat| < 0.001

instance (b : Bounds) : Decidable (belowMinSize b) := by
  unfold belowMinSize
  infer_instance

/-- The candidate new bounds computed by handleSideResize before its
minimum-size check: rotate the drag-start corners into container space,
project the pointer movement since drag start onto the normal of the grabbed
side, translate that side by the projected movement, recompute the center as
the mean of the moved corners, unrotate the moved SW / NE corners about the
new center, and take the bounds they span. -/
def sideResizeNewBounds (m : MapProj) (sess : ResizeSession) (pos : SidePos)
    (rotationAngle : ℝ) (currentLatLng : LatLng) : Bounds :=
  let currentMousePoint := m.latLngToContainerPoint currentLatLng
  let initialMousePoint := m.latLngToContainerPoint sess.initialResizeHandlePos
  let dx := currentMousePoint.x - initialMousePoint.x
  let dy := currentMousePoint.y - initialMousePoint.y
  let origSW := sess.initialRectBounds.getSouthWest
  let origNE := sess.initialRectBounds.getNorthEast
  let origNW := LatLng.mk origNE.lat origSW.lng
  let origSE := LatLng.mk origSW.lat origNE.lng
  let center := sess.initialRectBounds.getCenter
  let angle := rotationAngle * Real.pi / 180
  let centerPoint := m.latLngToContainerPoint center
  let swR := rotatePoint (m.latLngToContainerPoint origSW) centerPoint angle
  let seR := rotatePoint (m.latLngToContainerPoint origSE) centerPoint angle
  let neR := rotatePoint (m.latLngToContainerPoint origNE) centerPoint angle
  let nwR := rotatePoint (m.latLngToContainerPoint origNW) centerPoint angle
  let sideVector : Pt :=
    match pos with
    | .top => ⟨neR.x - nwR.x, neR.y - nwR.y⟩
    | .bottom => ⟨seR.x - swR.x, seR.y - swR.y⟩
    | .left => ⟨nwR.x - swR.x, nwR.y - swR.y⟩
    | .right => ⟨neR.x - seR.x, neR.y - seR.y⟩
  let perpVector0 : Pt := ⟨-sideVector.y, sideVector.x⟩
  let perpLength := Real.sqrt (perpVector0.x * perpVector0.x + perpVector0.y * perpVector0.y)
  let perpVector : Pt :=
    if 0 < perpLength then ⟨perpVector0.x / perpLength, perpVector0.y / perpLength⟩
    else perpVector0
  let projectedDistance := dx * perpVector.x + dy * perpVector.y
  let moveVector : Pt := ⟨projectedDistance * perpVector.x, projectedDistance * perpVector.y⟩
  let newSWc : Pt :=
    match pos with
    | .bottom => ⟨swR.x + moveVector.x, swR.y + moveVector.y⟩
    | .left => ⟨swR.x + moveVector.x, swR.y + moveVector.y⟩
    | _ => swR
  let newSEc : Pt :=
    match pos with
    | .bottom => ⟨seR.x + moveVector.x, seR.y + moveVector.y⟩
    | .right => ⟨seR.x + moveVector.x, seR.y + moveVector.y⟩
    | _ => seR
  let newNEc : Pt :=
    match pos with
    | .top => ⟨neR.x + moveVector.x, neR.y + moveVector.y⟩
    | .right => ⟨neR.x + moveVector.x, neR.y + moveVector.y⟩
    | _ => neR
  let newNWc : Pt :=
    match pos with
    | .top => ⟨nwR.x + moveVector.x, nwR.y + moveVector.y⟩
    | .left => ⟨nwR.x + moveVector.x, nwR.y + moveVector.y⟩
    | _ => nwR
  let newCenterPoint : Pt :=
    ⟨(newSWc.x + newSEc.x + newNEc.x + newNWc.x) / 4,
     (newSWc.y + newSEc.y + newNEc.y + newNWc.y) / 4⟩
  let unrotatedSW := m.containerPointToLatLng (unrotatePoint newSWc newCenterPoint angle)
  let unrotatedNE := m.containerPointToLatLng (unrotatePoint newNEc newCenterPoint angle)
  latLngBounds2 unrotatedSW unrotatedNE

/-- handleSideResize: compute the candidate bounds; below the minimum size
the frame is dropped (state unchanged), otherwise setBounds followed by
applyRotation. -/
def handleSideResize (m : MapProj) (pos : SidePos) (st : UIState)
    (currentLatLng : LatLng) : UIState :=
  let newBounds := sideResizeNewBounds m st.session pos st.rect.rotationAngle currentLatLng
  if belowMinSize newBounds then st
  else { st with rect := applyRotation (st.rect.setBounds newBounds) }

/-- The candidate new bounds computed by the unrotated branch of
handleCornerResize before its minimum-size check: hold the corner opposite
the grabbed one fixed, move the grabbed corner by the pointer movement in
container space, and take the bounds spanned by the fixed and moved corner. -/
def cornerResizeNewBoundsUnrotated (m : MapProj) (sess : ResizeSession) (pos : CornerPos)
    (currentLatLng : LatLng) : Bounds :=
  let currentMousePoint := m.latLngToContainerPoint currentLatLng
  let initialMousePoint := m.latLngToContainerPoint sess.initialResizeHandlePos
  let dx := currentMousePoint.x - initialMousePoint.x
  let dy := currentMousePoint.y - initialMousePoint.y
  let origSW := sess.initialRectBounds.getSouthWest
  let origNE := sess.initialRectBounds.getNorthEast
  let origNW := LatLng.mk origNE.lat origSW.lng
  let origSE := LatLng.mk origSW.lat origNE.lng
  let fixedCorner :=
    match pos with
    | .topLeft => origSE
    | .topRight => origSW
    | .bottomLeft => origNE
    | .bottomRight => origNW
  let movingCorner :=
    match pos with
    | .topLeft => origNW
    | .topRight => origNE
    | .bottomLeft => origSW
    | .bottomRight => origSE
  let movingCornerPoint := m.latLngToContainerPoint movingCorner
  let newMovingCornerPoint : Pt := ⟨movingCornerPoint.x + dx, movingCornerPoint.y + dy⟩
  let newMovingCorner := m.containerPointToLatLng newMovingCornerPoint
  latLngBounds2 fixedCorner newMovingCorner

/-- handleCornerResize.  For rotation below 0.01 degrees: bounds-based resize
holding the opposite corner fixed, rejected below the minimum size.  For a
rotated rectangle: work on the current polygon corners (getLatLngs), project
the moved corner onto the two rectangle axes out of the fixed corner, rebuild
the four corners, assign them directly with setLatLngs, and store the
bounding box of the new corners as the new _originalBounds. -/
def handleCornerResize (m : MapProj) (pos : CornerPos) (st : UIState)
    (currentLatLng : LatLng) : UIState :=
  let currentMousePoint := m.latLngToContainerPoint currentLatLng
  let initialMousePoint := m.latLngToContainerPoint st.session.initialResizeHandlePos
  let dx := currentMousePoint.x - initialMousePoint.x
  let dy := currentMousePoint.y - initialMousePoint.y
  if |st.rect.rotationAngle| < 0.01 then
    let newBounds := cornerResizeNewBoundsUnrotated m st.session pos currentLatLng
    if belowMinSize newBounds then st
    else { st with rect := st.rect.setBounds newBounds }
  else
    let currentCorners := st.rect.latLngs
    let currentSW := currentCorners.getD 0 ⟨0, 0⟩
    let currentSE := currentCorners.getD 1 ⟨0, 0⟩
    let currentNE := currentCorners.getD 2 ⟨0, 0⟩
    let currentNW := currentCorners.getD 3 ⟨0, 0⟩
    let fixedCorner :=
      match pos with
      | .topLeft => currentSE
      | .topRight => currentSW
      | .bottomLeft => currentNE
      | .bottomRight => currentNW
    let movingCorner :=
      match pos with
      | .topLeft => currentNW
      | .topRight => currentNE
      | .bottomLeft => currentSW
      | .bottomRight => currentSE
    let fixedPoint := m.latLngToContainerPoint fixedCorner
    let movingPoint := m.latLngToContainerPoint movingCorner
    let newMovingPoint : Pt := ⟨movingPoint.x + dx, movingPoint.y + dy⟩
    let otherCorner1 :=
      match pos with
      | .topLeft => currentSW
      | .topRight => currentNW
      | .bottomLeft => currentNW
      | .bottomRight => currentSW
    let otherCorner2 :=
      match pos with
      | .topLeft => currentNE
      | .topRight => currentSE
      | .bottomLeft => currentSE
      | .bottomRight => currentNE
    let otherPoint1 := m.latLngToContainerPoint otherCorner1
    let otherPoint2 := m.latLngToContainerPoint otherCorner2
    let axis1X := otherPoint1.x - fixedPoint.x
    let axis1Y := otherPoint1.y - fixedPoint.y
    let axis2X := otherPoint2.x - fixedPoint.x
    let axis2Y := otherPoint2.y - fixedPoint.y
    let axis1Length := Real.sqrt (axis1X * axis1X + axis1Y * axis1Y)
    let axis2Length := Real.sqrt (axis2X * axis2X + axis2Y * axis2Y)
    if axis1Length < 1 ∨ axis2Length < 1 then st
    else
      let axis1UnitX := axis1X / axis1Length
      let axis1UnitY := axis1Y / axis1Length
      let axis2UnitX := axis2X / axis2Length
      let axis2UnitY := axis2Y / axis2Length
      let deltaX := newMovingPoint.x - fixedPoint.x
      let deltaY := newMovingPoint.y - fixedPoint.y
      let proj1 := deltaX * axis1UnitX + deltaY * axis1UnitY
      let proj2 := deltaX * axis2UnitX + deltaY * axis2UnitY
      if |proj1| < 20 ∨ |proj2| < 20 then st
      else
        let newOtherPoint1 : Pt :=
          ⟨fixedPoint.x + proj1 * axis1UnitX, fixedPoint.y + proj1 * axis1UnitY⟩
        let newOtherPoint2 : Pt :=
          ⟨fixedPoint.x + proj2 * axis2UnitX, fixedPoint.y + proj2 * axis2UnitY⟩
        let newOppositePoint : Pt :=
          ⟨fixedPoint.x + proj1 * axis1UnitX + proj2 * axis2UnitX,
           fixedPoint.y + proj1 * axis1UnitY + proj2 * axis2UnitY⟩
        let newFixedCorner := fixedCorner
        let newOtherCorner1 := m.containerPointToLatLng newOtherPoint1
        let newOtherCorner2 := m.containerPointToLatLng newOtherPoint2
        let newOppositeCorner := m.containerPointToLatLng newOppositePoint
        let newCorners :=
          match pos with
          | .topLeft => [newOtherCorner1, newFixedCorner, newOtherCorner2, newOppositeCorner]
          | .topRight => [newFixedCorner, newOtherCorner2, newOppositeCorner, newOtherCorner1]
          | .bottomLeft => [newOppositeCorner, newOtherCorner2, newFixedCorner, newOtherCorner1]
          | .bottomRight => [newOtherCorner1, newOppositeCorner, newOtherCorner2, newFixedCorner]
        { st with rect :=
            { st.rect with
                latLngs := newCorners
                originalBounds := latLngBoundsOfList newCorners } }

/-- The isResizing branch of the map mousemove handler: dispatch on the
grabbed handle kind; session variables are only cleared on mouseup. -/
def resizeMove (m : MapProj) (st : UIState) (currentLatLng : LatLng) : UIState :=
  if st.isResizing then
    match st.session.handle with
    | .corner pos => handleCornerResize m pos st currentLatLng
    | .side pos => handleSideResize m pos st currentLatLng
  else st

/-- C7: a resize pointer-move whose candidate bounds fall below the
0.001-degree minimum size (for a side resize, or for a corner resize of an
unrotated rectangle) leaves the whole interaction state unchanged: same
bounds, extents and rotation, and the drag session remains active. -/
theorem min_size_rejection (m : MapProj) (st : UIState) (currentLatLng : LatLng)
    (hres : st.isResizing = true)
    (hguard :
      match st.session.handle with
      | .side pos =>
          belowMinSize (sideResizeNewBounds m st.session pos st.rect.rotationAngle currentLatLng)
      | .corner pos =>
          |st.rect.rotationAngle| < 0.01
            ∧ belowMinSize (cornerResizeNewBoundsUnrotated m st.session pos currentLatLng)) :
    resizeMove m st currentLatLng = st := by
  unfold resizeMove
  rw [hres]
  simp only [if_true]
  cases hsh : st.session.handle with
  | corner pos =>
    rw [hsh] at hguard
    have hrot : |st.rect.rotationAngle| < 0.01 := hguard.1
    have hg : belowMinSize (cornerResizeNewBoundsUnrotated m st.session pos currentLatLng) :=
      hguard.2
    simp only [handleCornerResize]
    rw [if_pos hrot, if_pos hg]
  | side pos =>
    rw [hsh] at hguard
    have hg : belowMinSize
        (sideResizeNewBounds m st.session pos st.rect.rotationAngle currentLatLng) := hguard
    simp only [handleSideResize]
    rw [if_pos hg]

/-- A concrete linear viewport (2000 container pixels per degree,
equirectangular, y growing downward), a valid instance of the Leaflet
container-point conversion near the equator. -/
def demoTinyViewport : MapProj :=
  ⟨fun p => ⟨2000 * p.lng, -(2000 * p.lat)⟩, fun q => ⟨-(q.y / 2000), q.x / 2000⟩⟩

/-- A resize session on a rectangle 0.0005 degrees across: grabbing the top
side handle of the unrotated rectangle with bounds sw = (0, 0),
ne = (0.0005, 0.0005), pointer down at (0, 0). -/
def demoTinyState : UIState :=
  ⟨⟨⟨0, 0, 0.0005, 0.0005⟩, 0, calculateCorners ⟨0, 0, 0.0005, 0.0005⟩ 0⟩, true,
   ⟨.side .top, ⟨0, 0⟩, ⟨0, 0, 0.0005, 0.0005⟩⟩⟩

/-- Witness for C7: on the tiny rectangle the candidate bounds of a top-side
resize frame stay under the 0.001-degree minimum, and the frame leaves the
state unchanged. -/
theorem min_size_rejection_witness :
    demoTinyState.isResizing = true
      ∧ belowMinSize (sideResizeNewBounds demoTinyViewport demoTinyState.session .top
          demoTinyState.rect.rotationAngle ⟨0, 0⟩)
      ∧ resizeMove demoTinyViewport demoTinyState ⟨0, 0⟩ = demoTinyState := by
  have h1 : demoTinyState.isResizing = true := rfl
  have h2 : belowMinSize (sideResizeNewBounds demoTinyViewport demoTinyState.session .top
      demoTinyState.rect.rotationAngle ⟨0, 0⟩) := by
    unfold sideResizeNewBounds demoTinyViewport demoTinyState rotatePoint unrotatePoint
      latLngBounds2 belowMinSize Bounds.getSouthWest Bounds.getNorthEast Bounds.getCenter
    norm_num [abs_lt]
  exact ⟨h1, h2, min_size_rejection demoTinyViewport demoTinyState ⟨0, 0⟩ h1 h2⟩

/-! ## C1: the rotated corner-resize bypasses the corner derivation -/

/-- Normalisation fixes 90 degrees. -/
theorem normalizeRotation_90 : normalizeRotation (90 : ℝ) = 90 := by
  rw [normalizeRotation_eq_fract, show (90 : ℝ) / 360 = 1 / 4 by norm_num,
    Int.fract_eq_self.mpr ⟨by norm_num, by norm_num⟩]
  norm_num

/-- Corners of the bounds sw = (-1, -2), ne = (1, 2) at 90 degrees rotation. -/
theorem calculateCorners_demo1 :
    calculateCorners ⟨-1, -2, 1, 2⟩ 90 = [⟨2, -1⟩, ⟨-2, -1⟩, ⟨-2, 1⟩, ⟨2, 1⟩] := by
  unfold calculateCorners degreesToKm Bounds.getCenter Bounds.getSouthWest Bounds.getNorthEast
  simp only [show (-(90 : ℝ) * (Real.pi / 180)) = -(Real.pi / 2) from by ring,
    Real.cos_neg, Real.sin_neg, Real.cos_pi_div_two, Real.sin_pi_div_two]
  norm_num

/-- Corners of the bounds sw = (-2, -1), ne = (2, 2) at 90 degrees rotation. -/
theorem calculateCorners_demo2 :
    calculateCorners ⟨-2, -1, 2, 2⟩ 90
      = [⟨1.5, -1.5⟩, ⟨-1.5, -1.5⟩, ⟨-1.5, 2.5⟩, ⟨1.5, 2.5⟩] := by
  unfold calculateCorners degreesToKm Bounds.getCenter Bounds.getSouthWest Bounds.getNorthEast
  simp only [show (-(90 : ℝ) * (Real.pi / 180)) = -(Real.pi / 2) from by ring,
    Real.cos_neg, Real.sin_neg, Real.cos_pi_div_two, Real.sin_pi_div_two]
  norm_num

/-- A concrete linear viewport (100 container pixels per degree,
equirectangular, y growing downward). -/
def demoRotViewport : MapProj :=
  ⟨fun p => ⟨100 * p.lng, -(100 * p.lat)⟩, fun q => ⟨-(q.y / 100), q.x / 100⟩⟩

/-- Pre-state of the rotated corner-resize scenario: the rectangle built by
the engine operations (initialize with bounds sw = (-1, -2), ne = (1, 2),
then setRotation 90), with an active topRight corner-resize session whose
pointer went down at the rotated NE corner (-2, 1). -/
def demoRotState : UIState :=
  ⟨(mkRotatableRectangle ⟨-1, -2, 1, 2⟩).setRotation 90, true,
   ⟨.corner .topRight, ⟨-2, 1⟩, ⟨-1, -2, 1, 2⟩⟩⟩

/-- The engine operations produce the expected consistent pre-state: corners
equal to the derivation from the stored bounds and rotation. -/
theorem demoRotRect_eq :
    (mkRotatableRectangle ⟨-1, -2, 1, 2⟩).setRotation 90
      = ⟨⟨-1, -2, 1, 2⟩, 90, [⟨2, -1⟩, ⟨-2, -1⟩, ⟨-2, 1⟩, ⟨2, 1⟩]⟩ := by
  simp only [mkRotatableRectangle, RotatableRectangle.setRotation,
    RotatableRectangle.updateCorners, normalizeRotation_90, calculateCorners_demo1]

set_option maxHeartbeats 1600000 in
/-- Evaluation of one corner-resize pointer-move (pointer from (-2, 1) to
(-2, 2), i.e. 100 px right) on the rotated demo rectangle: the handler
assigns the four new corners directly and stores the bounding box of those
rotated corners as the new _originalBounds, leaving rotation at 90. -/
theorem resizeMove_demo_eval :
    resizeMove demoRotViewport demoRotState ⟨-2, 2⟩
      = ⟨⟨⟨-2, -1, 2, 2⟩, 90, [⟨2, -1⟩, ⟨-2, -1⟩, ⟨-2, 2⟩, ⟨2, 2⟩]⟩, true,
         ⟨.corner .topRight, ⟨-2, 1⟩, ⟨-1, -2, 1, 2⟩⟩⟩ := by
  have hs1 : Real.sqrt (40000 : ℝ) = 200 := by
    rw [show (40000 : ℝ) = 200 ^ 2 by norm_num]
    exact Real.sqrt_sq (by norm_num)
  have hs2 : Real.sqrt (160000 : ℝ) = 400 := by
    rw [show (160000 : ℝ) = 400 ^ 2 by norm_num]
    exact Real.sqrt_sq (by norm_num)
  have hstate : demoRotState
      = ⟨⟨⟨-1, -2, 1, 2⟩, 90, [⟨2, -1⟩, ⟨-2, -1⟩, ⟨-2, 1⟩, ⟨2, 1⟩]⟩, true,
         ⟨.corner .topRight, ⟨-2, 1⟩, ⟨-1, -2, 1, 2⟩⟩⟩ := by
    unfold demoRotState
    rw [demoRotRect_eq]
  rw [hstate]
  unfold resizeMove handleCornerResize demoRotViewport
  norm_num [abs_lt, hs1, hs2, latLngBoundsOfList, List.foldl_cons, List.foldl_nil,
    List.getD_cons_zero, List.getD_cons_succ, min_def, max_def]

/-- C1 (failing-input demonstration): starting from the consistent state the
engine operations produce (bounds sw = (-1, -2), ne = (1, 2), rotation 90,
corners derived by _calculateCorners), one rotated corner-resize pointer-move
leaves the polygon with corner positions that no longer equal
_calculateCorners applied to the stored bounds and rotation: the handler
assigned the corners directly, bypassing the derivation. -/
theorem corner_resize_bypasses_derivation :
    (resizeMove demoRotViewport demoRotState ⟨-2, 2⟩).rect.latLngs
      ≠ calculateCorners (resizeMove demoRotViewport demoRotState ⟨-2, 2⟩).rect.originalBounds
          (resizeMove demoRotViewport demoRotState ⟨-2, 2⟩).rect.rotationAngle := by
  simp only [resizeMove_demo_eval, calculateCorners_demo2]
  intro h
  simp only [List.cons.injEq, LatLng.mk.injEq] at h
  norm_num at h
